import Mathlib

/-!
Formal model of the `audio_unit` module of coreaudio-rs (`src/audio_unit/mod.rs`).

The module is a safety wrapper around an opaque native audio engine.  We give a
shallow embedding: the engine's primitives (`AudioComponentFindNext`,
`AudioComponentInstanceNew`, `AudioUnitInitialize`, `AudioUnitSetProperty`,
`AudioUnitGetProperty`, `AudioOutputUnitStop`, …) are oracles supplied as
parameters, statuses are integers with `0` meaning success, raw pointers are
natural numbers with `0` playing the role of the null pointer, and the heap
traffic of the callback-ownership code (`Box::into_raw` / `Box::from_raw`) is
recorded as an explicit event trace.
-/

namespace CoreAudio

/-- The `Scope` enum of `src/audio_unit/mod.rs` (lines 49-53): `Output = 0`, `Input = 1`. -/
inductive Scope
  | Output
  | Input
deriving DecidableEq, Repr

/-- The numeric value of a `Scope` used in the `scope as libc::c_uint` casts. -/
def Scope.c_uint : Scope → Nat
  | Scope.Output => 0
  | Scope.Input => 1

/-- The `Element` enum of `src/audio_unit/mod.rs` (lines 58-62): `Output = 0`, `Input = 1`. -/
inductive Element
  | Output
  | Input
deriving DecidableEq, Repr

/-- The numeric value of an `Element` used in the `elem as libc::c_uint` casts. -/
def Element.c_uint : Element → Nat
  | Element.Output => 0
  | Element.Input => 1

/-- Modelled from the spec: the error enum lives in `src/error.rs`, which is not part of the
provided sources; only its uses appear in `src/audio_unit/mod.rs`.  `NoKnownSubtype` and
`NoMatchingDefaultAudioUnitFound` are named at the use sites (lines 123 and 139), and §7 of
the design names `NativeStatus(code)` as the error derived from any non-zero engine status,
carrying the raw code. -/
inductive Error
  | NoKnownSubtype
  | NoMatchingDefaultAudioUnitFound
  | NativeStatus (code : Int)
deriving DecidableEq, Repr

/-- Modelled from the spec: `Error::from_os_status` (used via the `try_os_status!` macro,
lines 83-85) is defined in `src/error.rs`, outside the provided sources.  Per §6/§7 a `0`
status is success and any other value yields the status-derived error. -/
def from_os_status (status : Int) : Except Error Unit :=
  if status = 0 then Except.ok () else Except.error (Error.NativeStatus status)

/-! ### Generic property marshalling (`set_property` / `get_property`, lines 174-212) -/

/-- The argument record handed to the engine's `AudioUnitSetProperty` primitive:
identifier, the two `c_uint` casts, the data pointer (`0` = null), the byte size, and the
value the pointer refers to (`none` exactly when the pointer is null). -/
structure SetPropArgs (V : Type) where
  id : Nat
  scope : Nat
  elem : Nat
  data_ptr : Nat
  size : Nat
  data : Option V
deriving DecidableEq, Repr

/-- The argument record handed to the engine's `AudioUnitGetProperty` primitive. -/
structure GetPropArgs where
  id : Nat
  scope : Nat
  elem : Nat
  size : Nat
deriving DecidableEq, Repr

/-- `AudioUnit::set_property` (lines 174-188).  `prim` is the engine's
`AudioUnitSetProperty` primitive as a black box over an engine state `E`; `sizeofT` is
`std::mem::size_of::<T>()`; `maybe_data` carries, when present, the address of the borrowed
value (`data as *const _`) together with the value itself.  The `% 2 ^ 32` mirrors the
`as u32` cast of the size. -/
def set_property {V E : Type} (prim : E → SetPropArgs V → E × Int) (e : E)
    (sizeofT : Nat) (id : Nat) (scope : Scope) (elem : Element)
    (maybe_data : Option (Nat × V)) : E × Except Error Unit :=
  let data_ptr : Nat := match maybe_data with
    | some (addr, _) => addr
    | none => 0
  let size : Nat := match maybe_data with
    | some _ => sizeofT % 2 ^ 32
    | none => 0
  let args : SetPropArgs V :=
    { id := id, scope := scope.c_uint, elem := elem.c_uint,
      data_ptr := data_ptr, size := size, data := maybe_data.map Prod.snd }
  let (e', status) := prim e args
  (e', from_os_status status)

/-- `AudioUnit::get_property` (lines 199-212).  `prim` is the engine's
`AudioUnitGetProperty` primitive: it receives the key and size together with the content of
the uninitialized output buffer (`uninit`) and returns the status and the final buffer
content.  On status `0` the filled value is returned. -/
def get_property {V E : Type} (prim : E → GetPropArgs → V → Int × V) (e : E)
    (sizeofT : Nat) (id : Nat) (scope : Scope) (elem : Element) (uninit : V) :
    Except Error V :=
  let size : Nat := sizeofT % 2 ^ 32
  let (status, data) :=
    prim e { id := id, scope := scope.c_uint, elem := elem.c_uint, size := size } uninit
  match from_os_status status with
  | Except.ok () => Except.ok data
  | Except.error err => Except.error err

/-- Modelled from the spec: the engine itself is an external black box; §6 and §8 describe
it, for round-trip purposes, as a property table keyed by (identifier, scope, element) that
stores values without transformation.  The table maps the `(id, scope, elem)` key to the
stored value. -/
def PropTable (V : Type) : Type := Nat × Nat × Nat → Option V

/-- Modelled from the spec: the engine's `AudioUnitSetProperty` over a plain property
table — it stores the pointed-to value (or clears on a null pointer) and reports success. -/
def tableSetProperty {V : Type} (tbl : PropTable V) (a : SetPropArgs V) :
    PropTable V × Int :=
  (fun k => if k = (a.id, a.scope, a.elem) then a.data else tbl k, 0)

/-- Modelled from the spec: the engine's `AudioUnitGetProperty` over a plain property
table — it fills the output buffer with the stored value when one exists, and reports a
non-zero status otherwise (leaving the buffer content as it was). -/
def tableGetProperty {V : Type} (tbl : PropTable V) (a : GetPropArgs) (uninit : V) :
    Int × V :=
  match tbl (a.id, a.scope, a.elem) with
  | some v => (0, v)
  | none => (-1, uninit)

/-- An instrumented `AudioUnitSetProperty` that records every argument record it receives
and answers with the fixed status `s`: used to observe exactly what `set_property` passes
across the boundary. -/
def recordingSetProperty {V : Type} (s : Int) (log : List (SetPropArgs V))
    (a : SetPropArgs V) : List (SetPropArgs V) × Int :=
  (log ++ [a], s)

/-! ### Callback ownership (`set_render_callback`, `free_render_callback`, `Drop`) -/

/-- The trampoline function pointer.  `input_proc` (lines 320-362) is the only function
ever placed in the `inputProc` field of an `AURenderCallbackStruct`. -/
inductive ProcPtr
  | input_proc
deriving DecidableEq, Repr

/-- The `au::AURenderCallbackStruct` built at lines 227-230: an optional function pointer
and the opaque context pointer (`0` = `ptr::null_mut()`). -/
structure AURenderCallbackStruct where
  inputProc : Option ProcPtr
  inputProcRefCon : Nat
deriving DecidableEq, Repr

/-- The wrapper struct `AudioUnit` (lines 77-80): the opaque engine instance handle and
`maybe_callback`, the stored raw context pointer of the currently attached render
callback, when any. -/
structure AudioUnitState where
  instance_ : Nat
  maybe_callback : Option Nat
deriving DecidableEq, Repr

/-- The world of the callback-ownership code: the wrapper state together with the
engine-side registration, i.e. the last `AURenderCallbackStruct` the engine accepted via a
successful `AudioUnitSetProperty` with `kAudioUnitProperty_SetRenderCallback` (`none` if
none was ever accepted). -/
structure CallbackWorld where
  unit : AudioUnitState
  engineReg : Option AURenderCallbackStruct
deriving DecidableEq, Repr

/-- Heap and engine events emitted by the callback-ownership code: `alloc p` is the
`Box::into_raw (Box::new f)` allocation of a callback at address `p`, `free p` is the
reclaiming `Box::from_raw` in `free_render_callback`, and `callStop` / `callUninit` are
the `AudioOutputUnitStop` / `AudioUnitUninitialize` calls made during `Drop`. -/
inductive Ev
  | alloc (p : Nat)
  | free (p : Nat)
  | callStop
  | callUninit
deriving DecidableEq, Repr

/-- From the bindings collaborator: the identifier of the render-callback property.  Its
exact numeric value is irrelevant to the claims. -/
def kAudioUnitProperty_SetRenderCallback : Nat := 23

/-- `std::mem::size_of` of `au::AURenderCallbackStruct` (a function pointer plus a data
pointer on a 64-bit target).  Its exact value is irrelevant to the claims. -/
def sizeofAURenderCallbackStruct : Nat := 16

/-- The engine's `AudioUnitSetProperty` as seen by the registration call of
`set_render_callback`: the engine answers with the oracle `status`, and on success stores
the `AURenderCallbackStruct` the data pointer refers to as its current registration. -/
def renderRegSetProperty (status : Int) (reg : Option AURenderCallbackStruct)
    (a : SetPropArgs AURenderCallbackStruct) : Option AURenderCallbackStruct × Int :=
  if status = 0 then (a.data, 0) else (reg, status)

/-- `AudioUnit::free_render_callback` (lines 243-251): `self.maybe_callback.take()` empties
the slot, and when a pointer was stored its allocation is reclaimed (`Box::from_raw`),
emitting a `free` event. -/
def free_render_callback (u : AudioUnitState) : AudioUnitState × List Ev :=
  match u.maybe_callback with
  | some callback => ({ u with maybe_callback := none }, [Ev.free callback])
  | none => (u, [])

/-- `AudioUnit::set_render_callback` (lines 215-240).  `f` is the optional boxed user
callback (its payload type `α` is opaque here); `fresh` is the address produced by
`Box::into_raw (Box::new x)` when `f` is `some x`; `regAddr` is the stack address of the
local `render_callback` struct; `status` is the engine's answer to the registration
`set_property` call.  Returns the call's result, the new world, and the heap events in
order: the allocation of the new callback, then — only on success — the release of the
previously stored one. -/
def set_render_callback {α : Type} (w : CallbackWorld) (f : Option α) (fresh : Nat)
    (regAddr : Nat) (status : Int) : Except Error Unit × CallbackWorld × List Ev :=
  let callback_ptr : Nat := match f with
    | some _ => fresh
    | none => 0
  let allocEvs : List Ev := match f with
    | some _ => [Ev.alloc fresh]
    | none => []
  let render_callback : AURenderCallbackStruct :=
    { inputProc := some ProcPtr.input_proc, inputProcRefCon := callback_ptr }
  let (reg', res) := set_property (renderRegSetProperty status) w.engineReg
    sizeofAURenderCallbackStruct kAudioUnitProperty_SetRenderCallback
    Scope.Input Element.Output (some (regAddr, render_callback))
  match res with
  | Except.error err => (Except.error err, { w with engineReg := reg' }, allocEvs)
  | Except.ok () =>
    let (unit', freeEvs) := free_render_callback w.unit
    (Except.ok (),
     { unit := { unit' with
                  maybe_callback := if callback_ptr ≠ 0 then some callback_ptr else none },
       engineReg := reg' },
     allocEvs ++ freeEvs)

/-- `impl Drop for AudioUnit` (lines 302-316): call `AudioOutputUnitStop` (via
`self.stop()`) and halt the process on a non-zero status; then call
`AudioUnitUninitialize` and halt on a non-zero status; then `free_render_callback`.
`stopStatus` and `uninitStatus` are the engine's answers; the `Bool` records whether the
drop halted with a panic before completing. -/
def dropAudioUnit (w : CallbackWorld) (stopStatus uninitStatus : Int) :
    CallbackWorld × List Ev × Bool :=
  if stopStatus ≠ 0 then
    (w, [Ev.callStop], true)
  else if uninitStatus ≠ 0 then
    (w, [Ev.callStop, Ev.callUninit], true)
  else
    let (unit', freeEvs) := free_render_callback w.unit
    ({ w with unit := unit' }, [Ev.callStop, Ev.callUninit] ++ freeEvs, false)

/-! ### The render trampoline (`input_proc`, lines 320-362) -/

/-- The engine-supplied `au::AudioBufferList`, as read by `input_proc`: the channel count
`mNumberBuffers` and, for each buffer index, the `mData` address of its sample data
(`mBuffers[i].mData as *mut libc::c_float`). -/
structure AudioBufferList where
  mNumberBuffers : Nat
  mData : Nat → Nat

/-- A `&mut [f32]` view built by `std::slice::from_raw_parts_mut(slice_ptr, len)`: the
base address and the length in 32-bit float samples. -/
structure ChannelSlice where
  ptr : Nat
  len : Nat
deriving DecidableEq, Repr

/-- The per-channel views `input_proc` constructs (lines 332-351): one view per engine
buffer, each of length `in_number_frames`, starting at that buffer's `mData` address. -/
def input_proc_channels (io_data : AudioBufferList) (in_number_frames : Nat) :
    List ChannelSlice :=
  (List.range io_data.mNumberBuffers).map fun i =>
    { ptr := io_data.mData i, len := in_number_frames }

/-- Modelled from the spec: `AudioUnitError::NoConnection` comes from `src/error.rs`,
outside the provided sources; §4.4/§6 describe it as the one fixed application-chosen
"no connection" status code (the CoreAudio constant `kAudioUnitErr_NoConnection`). -/
def kAudioUnitErr_NoConnection : Int := -10876

/-- The outcome of one trampoline activation: either a status code returned to the engine
together with the lines successfully written to stderr, or a panic — the `unwrap()` on the
`writeln!` result aborts the activation when the stderr write fails (line 357). -/
inductive ProcResult
  | returns (status : Int) (emitted : List String)
  | panics
deriving DecidableEq, Repr

/-- `input_proc` (lines 320-362): build the channel views, invoke the user callback with
them and the frame count, and return `0` on success.  On failure, write the failure
description to stderr and return the `NoConnection` status; `stderrWriteOk` is the outcome
of that `writeln!` to stderr, and when it is `false` the `unwrap()` on the write result
panics, so nothing is emitted and no status is returned.  The user callback is passed by
its behaviour `callback`; the unused action-flag, timestamp and bus-number arguments are
omitted. -/
def input_proc (callback : List ChannelSlice → Nat → Except String Unit)
    (io_data : AudioBufferList) (in_number_frames : Nat) (stderrWriteOk : Bool) :
    ProcResult :=
  let channels := input_proc_channels io_data in_number_frames
  match callback channels in_number_frames with
  | Except.ok () => ProcResult.returns 0 []
  | Except.error description =>
    if stderrWriteOk then ProcResult.returns kAudioUnitErr_NoConnection [description]
    else ProcResult.panics

/-! ### Construction (`new` / `new_with_flags`, lines 108-156) -/

/-- The `au::AudioComponentDescription` built at lines 127-133. -/
structure AudioComponentDescription where
  componentType : Nat
  componentSubType : Nat
  componentManufacturer : Nat
  componentFlags : Nat
  componentFlagsMask : Nat
deriving DecidableEq, Repr

/-- From the bindings collaborator: `au::kAudioUnitManufacturer_Apple` (the four-char code
of the only documented manufacturer identifier). -/
def kAudioUnitManufacturer_Apple : Nat := 1634758764

/-- The engine primitives used by construction, as black-box oracles:
`AudioComponentFindNext` returns `none` for a null component, `AudioComponentInstanceNew`
returns its status and the instance it wrote through the out-pointer, and
`AudioUnitInitializeStatus` is the status of `AudioUnitInitialize` on an instance. -/
structure AudioComponentHost where
  AudioComponentFindNext : AudioComponentDescription → Option Nat
  AudioComponentInstanceNew : Nat → Int × Nat
  AudioUnitInitializeStatus : Nat → Int

/-- `AudioUnit::new_with_flags` (lines 116-156).  `sub_type` is the value of
`au_type.to_subtype_u32()` (the type table is an external collaborator, so the mapped
subtype code is taken as an input) and `componentType` the value of `au_type.to_u32()`.
Returns the constructed wrapper or the first error encountered, in source order:
no known subtype, no matching component, non-zero instantiation status, non-zero
initialization status. -/
def new_with_flags (host : AudioComponentHost) (sub_type : Option Nat)
    (componentType flags mask : Nat) : Except Error AudioUnitState :=
  match sub_type with
  | none => Except.error Error.NoKnownSubtype
  | some sub_type_u32 =>
    let desc : AudioComponentDescription :=
      { componentType := componentType, componentSubType := sub_type_u32,
        componentManufacturer := kAudioUnitManufacturer_Apple,
        componentFlags := flags, componentFlagsMask := mask }
    match host.AudioComponentFindNext desc with
    | none => Except.error Error.NoMatchingDefaultAudioUnitFound
    | some component =>
      let (newStatus, inst) := host.AudioComponentInstanceNew component
      match from_os_status newStatus with
      | Except.error err => Except.error err
      | Except.ok () =>
        match from_os_status (host.AudioUnitInitializeStatus inst) with
        | Except.error err => Except.error err
        | Except.ok () => Except.ok { instance_ := inst, maybe_callback := none }

/-! ### Theorems -/

/-- Claim C1 (counterexample): at a concrete unit with callback `5` attached and a fresh
allocation at `9`, a registration status of `-50` makes `set_render_callback` emit the
allocation of the new callback but no `free` of it — the new callback is leaked, not
dropped locally as the claim states. -/
theorem set_render_callback_failure_cx :
    (set_render_callback
        { unit := { instance_ := 7, maybe_callback := some 5 }, engineReg := none }
        (some ()) 9 400 (-50)).2.2 = [Ev.alloc 9]
    ∧ Ev.free 9 ∉ (set_render_callback
        { unit := { instance_ := 7, maybe_callback := some 5 }, engineReg := none }
        (some ()) 9 400 (-50)).2.2 := by
  constructor <;> decide

/-- Claim C1 (amended): if the registration step inside `set_render_callback` answers a
non-zero status, the call returns the status-derived error, the whole world is unchanged
(the new callback is never transferred to the engine, and the previously attached callback
remains stored and untouched), and the only heap event is the allocation of the new
callback — which is therefore leaked, never freed. -/
theorem set_render_callback_failure {α : Type} (w : CallbackWorld) (f : Option α)
    (fresh regAddr : Nat) (status : Int) (h : status ≠ 0) :
    set_render_callback w f fresh regAddr status
      = (Except.error (Error.NativeStatus status), w,
         match f with
         | some _ => [Ev.alloc fresh]
         | none => []) := by
  cases f <;>
    simp [set_render_callback, set_property, renderRegSetProperty, from_os_status, h]

/-- Witness for C1: a concrete instance of `set_render_callback_failure`. -/
theorem set_render_callback_failure_witness :
    set_render_callback
        { unit := { instance_ := 7, maybe_callback := some 5 }, engineReg := none }
        (some ()) 9 400 (-50)
      = (Except.error (Error.NativeStatus (-50)),
         { unit := { instance_ := 7, maybe_callback := some 5 }, engineReg := none },
         [Ev.alloc 9]) :=
  set_render_callback_failure
    { unit := { instance_ := 7, maybe_callback := some 5 }, engineReg := none }
    (some ()) 9 400 (-50) (by decide)

/-- Claim C2: a successful `set_render_callback` with a new callback (allocated at
`fresh`) while callback `A` is attached returns `Ok`, stores `fresh` as the sole callback,
registers the trampoline with context `fresh` at the engine, and its heap trace is exactly
one allocation of the new callback followed by exactly one release of `A` — `A` is freed
exactly once and the new callback is not freed. -/
theorem set_render_callback_replaces {α : Type} (w : CallbackWorld) (x : α)
    (A fresh regAddr : Nat) (hA : w.unit.maybe_callback = some A) (hfresh : fresh ≠ 0) :
    (set_render_callback w (some x) fresh regAddr 0).1 = Except.ok ()
    ∧ (set_render_callback w (some x) fresh regAddr 0).2.1.unit.maybe_callback = some fresh
    ∧ (set_render_callback w (some x) fresh regAddr 0).2.1.engineReg
        = some { inputProc := some ProcPtr.input_proc, inputProcRefCon := fresh }
    ∧ (set_render_callback w (some x) fresh regAddr 0).2.2 = [Ev.alloc fresh, Ev.free A]
    ∧ ((set_render_callback w (some x) fresh regAddr 0).2.2).count (Ev.free A) = 1
    ∧ (A ≠ fresh →
        Ev.free fresh ∉ (set_render_callback w (some x) fresh regAddr 0).2.2) := by
  have htr : set_render_callback w (some x) fresh regAddr 0
      = (Except.ok (),
         { unit := { instance_ := w.unit.instance_, maybe_callback := some fresh },
           engineReg := some { inputProc := some ProcPtr.input_proc,
                               inputProcRefCon := fresh } },
         [Ev.alloc fresh, Ev.free A]) := by
    simp [set_render_callback, set_property, renderRegSetProperty, from_os_status,
          free_render_callback, hA, hfresh]
  refine ⟨by simp [htr], by simp [htr], by simp [htr], by simp [htr], ?_, ?_⟩
  · simp [htr, List.count_cons]
  · intro hne
    simp [htr]
    exact fun hc => hne hc.symm

/-- Witness for C2: a concrete instance of `set_render_callback_replaces`. -/
theorem set_render_callback_replaces_witness :
    (set_render_callback
        { unit := { instance_ := 7, maybe_callback := some 5 }, engineReg := none }
        (some ()) 9 400 0).1 = Except.ok ()
    ∧ (set_render_callback
        { unit := { instance_ := 7, maybe_callback := some 5 }, engineReg := none }
        (some ()) 9 400 0).2.1.unit.maybe_callback = some 9
    ∧ (set_render_callback
        { unit := { instance_ := 7, maybe_callback := some 5 }, engineReg := none }
        (some ()) 9 400 0).2.2 = [Ev.alloc 9, Ev.free 5] := by
  have h := set_render_callback_replaces
    { unit := { instance_ := 7, maybe_callback := some 5 }, engineReg := none }
    () 5 9 400 rfl (by decide)
  exact ⟨h.1, h.2.1, h.2.2.2.1⟩

/-- Claim C3: destruction calls the engine stop first; a non-zero stop status halts with a
panic before anything else happens; otherwise the engine uninitialize call follows, a
non-zero status there halts with a panic before the callback is released; and only when
both succeed is the attached callback (if any) released, after the two engine calls. -/
theorem dropAudioUnit_ordering (w : CallbackWorld) (stopStatus uninitStatus : Int) :
    (stopStatus ≠ 0 →
       dropAudioUnit w stopStatus uninitStatus = (w, [Ev.callStop], true))
    ∧ (stopStatus = 0 → uninitStatus ≠ 0 →
       dropAudioUnit w stopStatus uninitStatus
         = (w, [Ev.callStop, Ev.callUninit], true))
    ∧ (stopStatus = 0 → uninitStatus = 0 →
       dropAudioUnit w stopStatus uninitStatus
         = ({ unit := { instance_ := w.unit.instance_, maybe_callback := none },
              engineReg := w.engineReg },
            [Ev.callStop, Ev.callUninit]
              ++ (match w.unit.maybe_callback with
                  | some p => [Ev.free p]
                  | none => []),
            false)) := by
  refine ⟨fun h1 => by simp [dropAudioUnit, h1],
          fun h1 h2 => by simp [dropAudioUnit, h1, h2],
          fun h1 h2 => ?_⟩
  obtain ⟨⟨inst, mc⟩, reg⟩ := w
  cases mc <;> simp [dropAudioUnit, free_render_callback, h1, h2]

/-- Witness for C3: concrete instances of all three branches of `dropAudioUnit_ordering`. -/
theorem dropAudioUnit_ordering_witness :
    dropAudioUnit { unit := { instance_ := 7, maybe_callback := some 5 }, engineReg := none } 1 0
      = ({ unit := { instance_ := 7, maybe_callback := some 5 }, engineReg := none },
         [Ev.callStop], true)
    ∧ dropAudioUnit { unit := { instance_ := 7, maybe_callback := some 5 }, engineReg := none } 0 2
      = ({ unit := { instance_ := 7, maybe_callback := some 5 }, engineReg := none },
         [Ev.callStop, Ev.callUninit], true)
    ∧ dropAudioUnit { unit := { instance_ := 7, maybe_callback := some 5 }, engineReg := none } 0 0
      = ({ unit := { instance_ := 7, maybe_callback := none }, engineReg := none },
         [Ev.callStop, Ev.callUninit, Ev.free 5], false) := by
  refine ⟨(dropAudioUnit_ordering _ 1 0).1 (by decide),
          (dropAudioUnit_ordering _ 0 2).2.1 rfl (by decide), ?_⟩
  simpa using (dropAudioUnit_ordering
    { unit := { instance_ := 7, maybe_callback := some 5 }, engineReg := none } 0 0).2.2 rfl rfl

/-- Claim C4: the trampoline builds exactly one channel view per engine-supplied buffer,
each of length exactly `in_number_frames` and based at that buffer's `mData` address,
invokes the user callback with exactly those views and the frame count, and in particular
for frame count `512` and `2` buffers it presents exactly `2` views of length `512`. -/
theorem input_proc_slicing (io_data : AudioBufferList) (in_number_frames : Nat)
    (callback : List ChannelSlice → Nat → Except String Unit) :
    (input_proc_channels io_data in_number_frames).length = io_data.mNumberBuffers
    ∧ (∀ i : Fin (input_proc_channels io_data in_number_frames).length,
        (input_proc_channels io_data in_number_frames).get i
          = { ptr := io_data.mData i.val, len := in_number_frames })
    ∧ (∀ stderrWriteOk : Bool,
        input_proc callback io_data in_number_frames stderrWriteOk
          = (match callback (input_proc_channels io_data in_number_frames)
                in_number_frames with
             | Except.ok () => ProcResult.returns 0 []
             | Except.error description =>
               if stderrWriteOk then
                 ProcResult.returns kAudioUnitErr_NoConnection [description]
               else ProcResult.panics))
    ∧ ∀ m : Nat → Nat,
        (input_proc_channels { mNumberBuffers := 2, mData := m } 512).length = 2
        ∧ ∀ c ∈ input_proc_channels { mNumberBuffers := 2, mData := m } 512,
            c.len = 512 := by
  refine ⟨by simp [input_proc_channels], ?_, fun _ => rfl,
          fun m => ⟨by simp [input_proc_channels], ?_⟩⟩
  · intro i
    simp [input_proc_channels, List.get_map, List.get_range]
  · intro c hc
    simp [input_proc_channels] at hc
    obtain ⟨i, hi, hc⟩ := hc
    subst hc
    rfl

/-- Witness for C4: a concrete instance of `input_proc_slicing` with `2` buffers and
frame count `512`. -/
theorem input_proc_slicing_witness :
    (input_proc_channels { mNumberBuffers := 2, mData := fun i => 100 + i } 512).length = 2
    ∧ ChannelSlice.len { ptr := 100, len := 512 } = 512 := by
  have h := input_proc_slicing { mNumberBuffers := 2, mData := fun i => 100 + i } 512
    (fun _ _ => Except.ok ())
  exact ⟨(h.2.2.2 (fun i => 100 + i)).1,
         (h.2.2.2 (fun i => 100 + i)).2 { ptr := 100, len := 512 } (by decide)⟩

/-- Claim C5 (counterexample): at a concrete invocation whose user callback fails and
whose stderr write fails, the trampoline panics (the `unwrap()` at line 357) — it does not
write the description and return the `NoConnection` status, so the claimed "without
panicking" is false. -/
theorem input_proc_stderr_failure_cx :
    input_proc (fun _ _ => Except.error "buffer overrun")
        { mNumberBuffers := 2, mData := fun i => 100 + i } 512 false
      = ProcResult.panics
    ∧ input_proc (fun _ _ => Except.error "buffer overrun")
        { mNumberBuffers := 2, mData := fun i => 100 + i } 512 false
      ≠ ProcResult.returns kAudioUnitErr_NoConnection ["buffer overrun"] := by
  constructor <;> decide

/-- Claim C5 (amended): the trampoline returns the zero status exactly when the user
callback succeeds; when the callback fails with a description and the stderr write
succeeds, the trampoline emits that description on the diagnostic stream and returns the
fixed non-zero `NoConnection` status; when the stderr write fails, the `unwrap` on the
write result makes the trampoline panic instead of returning. -/
theorem input_proc_error_translation (io_data : AudioBufferList)
    (in_number_frames : Nat)
    (callback : List ChannelSlice → Nat → Except String Unit)
    (stderrWriteOk : Bool) :
    (input_proc callback io_data in_number_frames stderrWriteOk = ProcResult.returns 0 []
       ↔ callback (input_proc_channels io_data in_number_frames) in_number_frames
           = Except.ok ())
    ∧ (∀ description,
         callback (input_proc_channels io_data in_number_frames) in_number_frames
             = Except.error description →
         (stderrWriteOk = true →
            input_proc callback io_data in_number_frames stderrWriteOk
              = ProcResult.returns kAudioUnitErr_NoConnection [description])
         ∧ (stderrWriteOk = false →
            input_proc callback io_data in_number_frames stderrWriteOk
              = ProcResult.panics))
    ∧ kAudioUnitErr_NoConnection ≠ 0 := by
  refine ⟨?_, ?_, by decide⟩
  · rcases h : callback (input_proc_channels io_data in_number_frames) in_number_frames
      with d | ⟨⟩
    · cases stderrWriteOk <;> simp [input_proc, h]
    · simp [input_proc, h]
  · intro description h
    refine ⟨fun hw => ?_, fun hw => ?_⟩ <;> subst hw <;> simp [input_proc, h]

/-- Witness for C5: a concrete failing callback makes the trampoline return the
`NoConnection` status and emit the description when the stderr write succeeds, and panic
when it fails. -/
theorem input_proc_error_translation_witness :
    input_proc (fun _ _ => Except.error "buffer overrun")
        { mNumberBuffers := 2, mData := fun i => 100 + i } 512 true
      = ProcResult.returns kAudioUnitErr_NoConnection ["buffer overrun"]
    ∧ input_proc (fun _ _ => Except.error "buffer overrun")
        { mNumberBuffers := 2, mData := fun i => 100 + i } 512 false
      = ProcResult.panics := by
  have h := input_proc_error_translation
    { mNumberBuffers := 2, mData := fun i => 100 + i } 512
    (fun _ _ => Except.error "buffer overrun") true
  have h2 := input_proc_error_translation
    { mNumberBuffers := 2, mData := fun i => 100 + i } 512
    (fun _ _ => Except.error "buffer overrun") false
  exact ⟨(h.2.1 "buffer overrun" rfl).1 rfl, (h2.2.1 "buffer overrun" rfl).2 rfl⟩

/-- Claim C6: construction returns `NoKnownSubtype` exactly when the descriptor has no
concrete subtype code; returns `NoMatchingDefaultAudioUnitFound` exactly when a subtype
exists but discovery yields no component; returns the status-derived error of a failing
instantiation or initialization (and then no unit); and otherwise returns a unit whose
callback slot is empty. -/
theorem new_with_flags_spec (host : AudioComponentHost) (sub_type : Option Nat)
    (componentType flags mask : Nat) :
    (new_with_flags host sub_type componentType flags mask
         = Except.error Error.NoKnownSubtype
       ↔ sub_type = none)
    ∧ (new_with_flags host sub_type componentType flags mask
         = Except.error Error.NoMatchingDefaultAudioUnitFound
       ↔ ∃ s, sub_type = some s
           ∧ host.AudioComponentFindNext
               { componentType := componentType, componentSubType := s,
                 componentManufacturer := kAudioUnitManufacturer_Apple,
                 componentFlags := flags, componentFlagsMask := mask } = none)
    ∧ (∀ s component, sub_type = some s →
        host.AudioComponentFindNext
            { componentType := componentType, componentSubType := s,
              componentManufacturer := kAudioUnitManufacturer_Apple,
              componentFlags := flags, componentFlagsMask := mask } = some component →
        (host.AudioComponentInstanceNew component).1 ≠ 0 →
        new_with_flags host sub_type componentType flags mask
          = Except.error (Error.NativeStatus (host.AudioComponentInstanceNew component).1))
    ∧ (∀ s component, sub_type = some s →
        host.AudioComponentFindNext
            { componentType := componentType, componentSubType := s,
              componentManufacturer := kAudioUnitManufacturer_Apple,
              componentFlags := flags, componentFlagsMask := mask } = some component →
        (host.AudioComponentInstanceNew component).1 = 0 →
        host.AudioUnitInitializeStatus (host.AudioComponentInstanceNew component).2 ≠ 0 →
        new_with_flags host sub_type componentType flags mask
          = Except.error (Error.NativeStatus
              (host.AudioUnitInitializeStatus (host.AudioComponentInstanceNew component).2)))
    ∧ (∀ s component, sub_type = some s →
        host.AudioComponentFindNext
            { componentType := componentType, componentSubType := s,
              componentManufacturer := kAudioUnitManufacturer_Apple,
              componentFlags := flags, componentFlagsMask := mask } = some component →
        (host.AudioComponentInstanceNew component).1 = 0 →
        host.AudioUnitInitializeStatus (host.AudioComponentInstanceNew component).2 = 0 →
        new_with_flags host sub_type componentType flags mask
          = Except.ok { instance_ := (host.AudioComponentInstanceNew component).2,
                        maybe_callback := none }) := by
  refine ⟨?_, ?_, ?_, ?_, ?_⟩
  · cases sub_type with
    | none => simp [new_with_flags]
    | some s =>
      have hne : new_with_flags host (some s) componentType flags mask
          ≠ Except.error Error.NoKnownSubtype := by
        cases hf : host.AudioComponentFindNext
            { componentType := componentType, componentSubType := s,
              componentManufacturer := kAudioUnitManufacturer_Apple,
              componentFlags := flags, componentFlagsMask := mask } with
        | none => simp [new_with_flags, hf]
        | some component =>
          by_cases h1 : (host.AudioComponentInstanceNew component).1 = 0
          · by_cases h2 : host.AudioUnitInitializeStatus
                (host.AudioComponentInstanceNew component).2 = 0
            · simp [new_with_flags, hf, from_os_status, h1, h2]
            · simp [new_with_flags, hf, from_os_status, h1, h2]
          · simp [new_with_flags, hf, from_os_status, h1]
      simp [hne]
  · cases sub_type with
    | none => simp [new_with_flags]
    | some s =>
      constructor
      · intro h
        cases hf : host.AudioComponentFindNext
            { componentType := componentType, componentSubType := s,
              componentManufacturer := kAudioUnitManufacturer_Apple,
              componentFlags := flags, componentFlagsMask := mask } with
        | none => exact ⟨s, rfl, hf⟩
        | some component =>
          exfalso
          by_cases h1 : (host.AudioComponentInstanceNew component).1 = 0
          · by_cases h2 : host.AudioUnitInitializeStatus
                (host.AudioComponentInstanceNew component).2 = 0
            · simp [new_with_flags, hf, from_os_status, h1, h2] at h
            · simp [new_with_flags, hf, from_os_status, h1, h2] at h
          · simp [new_with_flags, hf, from_os_status, h1] at h
      · rintro ⟨s1, hs, hfind⟩
        injection hs with hss
        subst hss
        simp [new_with_flags, hfind]
  · intro s1 component hs hc hne
    subst hs
    simp [new_with_flags, hc, from_os_status, hne]
  · intro s1 component hs hc h1 hne
    subst hs
    simp [new_with_flags, hc, from_os_status, h1, hne]
  · intro s1 component hs hc h1 h2
    subst hs
    simp [new_with_flags, hc, from_os_status, h1, h2]

/-- Witness for C6: a concrete host on which construction succeeds with an empty callback
slot. -/
theorem new_with_flags_spec_witness :
    new_with_flags
        { AudioComponentFindNext := fun _ => some 3,
          AudioComponentInstanceNew := fun _ => (0, 11),
          AudioUnitInitializeStatus := fun _ => 0 }
        (some 42) 1 0 0
      = Except.ok { instance_ := 11, maybe_callback := none } :=
  (new_with_flags_spec
      { AudioComponentFindNext := fun _ => some 3,
        AudioComponentInstanceNew := fun _ => (0, 11),
        AudioUnitInitializeStatus := fun _ => 0 }
      (some 42) 1 0 0).2.2.2.2 42 3 rfl rfl rfl rfl

/-- Claim C7: with the engine modelled as a property table keyed by
(identifier, scope, element), a successful `set_property` of `v` followed by
`get_property` at the same key yields `v`. -/
theorem set_then_get_round_trip {V : Type} (tbl : PropTable V) (sizeofT id : Nat)
    (scope : Scope) (elem : Element) (addr : Nat) (v : V) (uninit : V) :
    (set_property tableSetProperty tbl sizeofT id scope elem (some (addr, v))).2
        = Except.ok ()
    ∧ get_property tableGetProperty
        (set_property tableSetProperty tbl sizeofT id scope elem (some (addr, v))).1
        sizeofT id scope elem uninit = Except.ok v := by
  constructor
  · rfl
  · simp [set_property, get_property, tableSetProperty, tableGetProperty, from_os_status]

/-- Claim C8: `set_property` passes to the engine's set-property primitive the address of
the value and exactly `sizeof T` bytes when the value is present, a null address and size
zero when it is absent, and its result is `Ok` exactly when the primitive's status is
zero, the status-derived error otherwise. -/
theorem set_property_marshalling {V : Type} (s : Int) (sizeofT id : Nat)
    (scope : Scope) (elem : Element) (maybe_data : Option (Nat × V))
    (hsize : sizeofT < 2 ^ 32) :
    (∀ addr v, maybe_data = some (addr, v) →
        (set_property (recordingSetProperty s) [] sizeofT id scope elem maybe_data).1
          = [{ id := id, scope := scope.c_uint, elem := elem.c_uint,
               data_ptr := addr, size := sizeofT, data := some v }])
    ∧ (maybe_data = none →
        (set_property (recordingSetProperty s) [] sizeofT id scope elem maybe_data).1
          = [{ id := id, scope := scope.c_uint, elem := elem.c_uint,
               data_ptr := 0, size := 0, data := none }])
    ∧ ((set_property (recordingSetProperty s) [] sizeofT id scope elem maybe_data).2
          = Except.ok () ↔ s = 0)
    ∧ (s ≠ 0 →
        (set_property (recordingSetProperty s) [] sizeofT id scope elem maybe_data).2
          = Except.error (Error.NativeStatus s)) := by
  refine ⟨?_, ?_, ?_, ?_⟩
  · rintro addr v rfl
    simp [set_property, recordingSetProperty, Nat.mod_eq_of_lt hsize]
    omega
  · rintro rfl
    simp [set_property, recordingSetProperty]
  · by_cases hs : s = 0 <;> simp [set_property, recordingSetProperty, from_os_status, hs]
  · intro hs
    simp [set_property, recordingSetProperty, from_os_status, hs]

/-- Witness for C8: a concrete instance of `set_property_marshalling` on both the present
and absent branches, with a failing status. -/
theorem set_property_marshalling_witness :
    (set_property (recordingSetProperty (-1)) [] 8 2 Scope.Input Element.Output
        (some (100, (3 : Nat)))).1
      = [{ id := 2, scope := 1, elem := 0, data_ptr := 100, size := 8, data := some 3 }]
    ∧ (set_property (recordingSetProperty (-1)) [] 8 2 Scope.Input Element.Output
        (some (100, (3 : Nat)))).2 = Except.error (Error.NativeStatus (-1))
    ∧ (set_property (recordingSetProperty (-1)) [] 8 2 Scope.Input Element.Output
        (none : Option (Nat × Nat))).1
      = [{ id := 2, scope := 1, elem := 0, data_ptr := 0, size := 0, data := none }] := by
  refine ⟨?_, ?_, ?_⟩
  · exact (set_property_marshalling (-1) 8 2 Scope.Input Element.Output
      (some (100, (3 : Nat))) (by norm_num)).1 100 3 rfl
  · exact (set_property_marshalling (-1) 8 2 Scope.Input Element.Output
      (some (100, (3 : Nat))) (by norm_num)).2.2.2 (by norm_num)
  · exact (set_property_marshalling (-1) 8 2 Scope.Input Element.Output
      (none : Option (Nat × Nat)) (by norm_num)).2.1 rfl

/-- Claim C9: `free_render_callback` takes the stored pointer out of the slot before
freeing it, so the slot is empty afterwards and an immediately following release finds the
slot empty, does nothing, and emits no `free` event — no allocation is ever released
twice. -/
theorem free_render_callback_at_most_once (u : AudioUnitState) :
    (free_render_callback u).1.maybe_callback = none
    ∧ free_render_callback (free_render_callback u).1
        = ((free_render_callback u).1, []) := by
  cases h : u.maybe_callback <;> simp [free_render_callback, h]

/-- Claim C10: `set_render_callback` with `None`, when the registration succeeds, returns
`Ok`, leaves the engine registered with the trampoline and a null (zero) context pointer,
releases any previously attached callback, and leaves the unit's callback slot empty. -/
theorem set_render_callback_none {α : Type} (w : CallbackWorld) (fresh regAddr : Nat) :
    (set_render_callback w (none : Option α) fresh regAddr 0).1 = Except.ok ()
    ∧ (set_render_callback w (none : Option α) fresh regAddr 0).2.1.engineReg
        = some { inputProc := some ProcPtr.input_proc, inputProcRefCon := 0 }
    ∧ (set_render_callback w (none : Option α) fresh regAddr 0).2.1.unit.maybe_callback
        = none
    ∧ (set_render_callback w (none : Option α) fresh regAddr 0).2.2
        = (match w.unit.maybe_callback with
           | some p => [Ev.free p]
           | none => []) := by
  cases h : w.unit.maybe_callback <;>
    simp [set_render_callback, set_property, renderRegSetProperty, from_os_status,
          free_render_callback, h]

end CoreAudio
